import Mathlib

/-!
Shallow embedding of `src/1_foundations/Carbaz/app.py`: a resume chatbot whose
core is a tool-call resolution loop (`Me.chat` / `Me.handle_tool_call`), two
tool handlers (`record_user_details`, `record_unknown_question`) and a push
notifier (`push` over `requests.post`).

External collaborators (the HTTP transport behind `requests.post`, the JSON
deserializer `json.loads`, the remote completion API, and the other third-party
callables living in the module's global namespace) are modelled as oracle
parameters.  Effectful functions return `List String × Except PyErr α`: the
list of texts handed to the transport (in order), then either the Python
return value or the exception that propagates.
-/

namespace Carbaz

/-- An HTTP response object as returned by `requests.post`; the code never
inspects it, so only the status code is modelled. -/
structure HttpResp where
  status : Nat
  deriving DecidableEq, Repr

/-- Python exceptions that the code under study can raise: `TypeError` from a
bad call, `json.JSONDecodeError` from `json.loads`, and a transport-level
exception raised by `requests.post`. -/
inductive PyErr
  | typeError
  | jsonDecodeError
  | transportError
  deriving DecidableEq, Repr

/-- Result of an effectful Python computation: the texts posted to the
notification transport so far, and the outcome (value or propagating
exception). -/
abbrev Eff (α : Type) := List String × Except PyErr α

/-- Deserialized tool arguments: a JSON object with string values (the only
shape the declared tool schemas admit). -/
abbrev Args := List (String × String)

/-- The JSON values the dispatcher serializes back to the model: `None` (from
`push`), `{}` for an unknown tool, and `{"recorded": "ok"}` from the two
handlers. -/
inductive JsonVal
  | null
  | str (s : String)
  | obj (fields : List (String × String))
  deriving DecidableEq, Repr

/-- `json.dumps` on the values above (default separators). -/
def dumps : JsonVal → String
  | .null => "null"
  | .str s => "\"" ++ s ++ "\""
  | .obj [] => "\x7b\x7d"
  | .obj fs =>
      "\x7b" ++
        String.intercalate ", "
          (fs.map (fun kv => "\"" ++ kv.1 ++ "\": \"" ++ kv.2 ++ "\"")) ++
      "\x7d"

/-- The transport behind `requests.post`: given the message text, either an
HTTP response (any status; the code ignores it) or `none`, modelling a raised
transport exception (connection error etc.). -/
abbrev Transport := String → Option HttpResp

/-- `post(url, data={... "message": text})` as used by `push`: one outbound
call carrying the message text; a transport exception propagates. -/
def post (trans : Transport) (message : String) : Eff HttpResp :=
  match trans message with
  | some r => ([message], .ok r)
  | none => ([message], .error .transportError)

/-- `push(text)`: sends one Pushover notification; the HTTP response is
discarded, the function returns `None`. -/
def push (trans : Transport) (text : String) : Eff Unit :=
  match post trans text with
  | (sent, .ok _) => (sent, .ok ())
  | (sent, .error e) => (sent, .error e)

/-- `record_user_details(email, name="Name not provided", notes="not
provided")`: the optional parameters are `none` when the caller omitted them,
in which case the source's default strings apply. -/
def record_user_details (trans : Transport) (email : String)
    (name : Option String) (notes : Option String) : Eff JsonVal :=
  let name := name.getD "Name not provided"
  let notes := notes.getD "not provided"
  match push trans ("Recording " ++ name ++ " with email " ++ email ++
      " and notes " ++ notes) with
  | (sent, .ok _) => (sent, .ok (.obj [("recorded", "ok")]))
  | (sent, .error e) => (sent, .error e)

/-- `record_unknown_question(question)`. -/
def record_unknown_question (trans : Transport) (question : String) :
    Eff JsonVal :=
  match push trans ("Recording " ++ question) with
  | (sent, .ok _) => (sent, .ok (.obj [("recorded", "ok")]))
  | (sent, .error e) => (sent, .error e)

/-- One property of a tool's JSON schema. -/
structure ParamSpec where
  name : String
  type : String
  description : String
  deriving DecidableEq, Repr

/-- The `parameters` block of a tool's JSON schema. -/
structure ParamsSchema where
  type : String
  properties : List ParamSpec
  required : List String
  additionalProperties : Bool
  deriving DecidableEq, Repr

/-- A tool's JSON schema as sent to the completion API. -/
structure ToolSchema where
  name : String
  description : String
  parameters : ParamsSchema
  deriving DecidableEq, Repr

/-- `record_user_details_json` from the source. -/
def record_user_details_json : ToolSchema :=
  { name := "record_user_details"
    description := "Use this tool to record that a user is interested in being in touch and provided an email address"
    parameters :=
      { type := "object"
        properties :=
          [⟨"email", "string", "The email address of this user"⟩,
           ⟨"name", "string", "The user\x27s name, if they provided it"⟩,
           ⟨"notes", "string", "Any additional information about the conversation that\x27s worth recording to give context"⟩]
        required := ["email"]
        additionalProperties := false } }

/-- `record_unknown_question_json` from the source. -/
def record_unknown_question_json : ToolSchema :=
  { name := "record_unknown_question"
    description := "Always use this tool to record any question that couldn\x27t be answered as you didn\x27t know the answer"
    parameters :=
      { type := "object"
        properties :=
          [⟨"question", "string", "The question that couldn\x27t be answered"⟩]
        required := ["question"]
        additionalProperties := false } }

/-- An entry of the module-level `tools` list. -/
structure ToolEntry where
  type : String
  function : ToolSchema
  deriving DecidableEq, Repr

/-- The `tools` list: the tool registry the completion API is shown. -/
def tools : List ToolEntry :=
  [⟨"function", record_user_details_json⟩,
   ⟨"function", record_unknown_question_json⟩]

/-- The names present in the tool registry. -/
def registryNames : List String := tools.map (fun t => t.function.name)

/-- A tool invocation as emitted by the model: `tool_call.id`,
`tool_call.function.name`, `tool_call.function.arguments` (a raw JSON
string). -/
structure ToolCall where
  id : String
  name : String
  arguments : String
  deriving DecidableEq, Repr

/-- A message of the working conversation sequence.  The `assistant`
constructor is the model's tool-call-bearing message appended back verbatim;
`tool` is a tool-result dict `{"role": "tool", "content": ..,
"tool_call_id": ..}`. -/
inductive Message
  | system (content : String)
  | user (content : String)
  | assistant (content : String) (tool_calls : List ToolCall)
  | tool (content : String) (tool_call_id : String)
  deriving DecidableEq, Repr

/-- The `tool_call_id` field of a tool-result message, if any. -/
def Message.toolCallId : Message → Option String
  | .tool _ i => some i
  | _ => none

/-- The `content` field of a message. -/
def Message.contentOf : Message → String
  | .system c => c
  | .user c => c
  | .assistant c _ => c
  | .tool c _ => c

/-- The message of `response.choices[0]`. -/
structure AssistantMessage where
  content : String
  tool_calls : List ToolCall
  deriving DecidableEq, Repr

/-- A completion response (the single choice the code reads):
`finish_reason` and the assistant message. -/
structure Response where
  finish_reason : String
  message : AssistantMessage
  deriving DecidableEq, Repr

/-- The remote completion API: from the request's message sequence to the
response.  (The static `tools` schema list is also sent but is a constant.) -/
abbrev Oracle := List Message → Response

/-- A value bound in the module's global namespace, as far as
`handle_tool_call`'s `globals().get(tool_name)` lookup can observe it.  The
two tool handlers and `push` are modelled exactly; other callables
(`load_dotenv`, `post`, the imported classes) are external and their call
behavior is an oracle; modules, dicts, lists and strings are not callable, so
calling one raises `TypeError`. -/
inductive PyGlobal
  | fnRecordUserDetails
  | fnRecordUnknownQuestion
  | fnPush
  | externalCallable (name : String)
  | uncallable (name : String)
  deriving DecidableEq, Repr

/-- The module-level global namespace of `app.py` when run as a script:
imports, the three functions, the two schema dicts, the `tools` list, the
`Me` class and the `__main__`-block bindings. -/
def module_globals : List (String × PyGlobal) :=
  [("json", .uncallable "json"),
   ("os", .uncallable "os"),
   ("load_dotenv", .externalCallable "load_dotenv"),
   ("ChatInterface", .externalCallable "ChatInterface"),
   ("OpenAI", .externalCallable "OpenAI"),
   ("PdfReader", .externalCallable "PdfReader"),
   ("post", .externalCallable "post"),
   ("push", .fnPush),
   ("record_user_details", .fnRecordUserDetails),
   ("record_unknown_question", .fnRecordUnknownQuestion),
   ("record_user_details_json", .uncallable "record_user_details_json"),
   ("record_unknown_question_json", .uncallable "record_unknown_question_json"),
   ("tools", .uncallable "tools"),
   ("Me", .externalCallable "Me"),
   ("name", .uncallable "name"),
   ("cv_pdf", .uncallable "cv_pdf"),
   ("summary_txt", .uncallable "summary_txt")]

/-- The oracle parameters standing for external libraries: the notification
transport, `json.loads` (`none` = raises `JSONDecodeError`), and the call
behavior of external callables reachable through `globals()`. -/
structure Env where
  trans : Transport
  parseJson : String → Option Args
  externalSem : String → Args → Except PyErr JsonVal

/-- Checks Python's keyword-argument binding for a function whose parameters
are `allowed` with `required` mandatory: an unexpected keyword or a missing
required one raises `TypeError`. -/
def keysOk (args : Args) (allowed : List String) (required : List String) :
    Bool :=
  args.all (fun kv => allowed.contains kv.1) &&
    required.all (fun k => (args.lookup k).isSome)

/-- `tool(**arguments)`: calling the looked-up global object with the
deserialized arguments as keyword arguments. -/
def callPy (env : Env) (g : PyGlobal) (args : Args) : Eff JsonVal :=
  match g with
  | .fnRecordUserDetails =>
      if keysOk args ["email", "name", "notes"] ["email"] then
        record_user_details env.trans ((args.lookup "email").getD "")
          (args.lookup "name") (args.lookup "notes")
      else ([], .error .typeError)
  | .fnRecordUnknownQuestion =>
      if keysOk args ["question"] ["question"] then
        record_unknown_question env.trans ((args.lookup "question").getD "")
      else ([], .error .typeError)
  | .fnPush =>
      if keysOk args ["text"] ["text"] then
        match push env.trans ((args.lookup "text").getD "") with
        | (sent, .ok _) => (sent, .ok .null)
        | (sent, .error e) => (sent, .error e)
      else ([], .error .typeError)
  | .externalCallable n => ([], env.externalSem n args)
  | .uncallable _ => ([], .error .typeError)

/-- The body of `handle_tool_call`'s loop for one invocation: deserialize the
arguments (uncaught failure propagates), look the name up in `globals()`,
call the object if found (`{}` otherwise), and build the tool-result
message. -/
def handleOne (env : Env) (tc : ToolCall) : Eff Message :=
  match env.parseJson tc.arguments with
  | none => ([], .error .jsonDecodeError)
  | some args =>
    match module_globals.lookup tc.name with
    | some g =>
      match callPy env g args with
      | (sent, .ok result) => (sent, .ok (.tool (dumps result) tc.id))
      | (sent, .error e) => (sent, .error e)
    | none => ([], .ok (.tool (dumps (.obj [])) tc.id))

/-- `Me.handle_tool_call(tool_calls)`: one result message per invocation, in
order; the first exception aborts the rest (notifications already sent
stay sent). -/
def handle_tool_call (env : Env) : List ToolCall → Eff (List Message)
  | [] => ([], .ok [])
  | tc :: rest =>
    match handleOne env tc with
    | (sent, .error e) => (sent, .error e)
    | (sent, .ok m) =>
      match handle_tool_call env rest with
      | (sent2, .error e) => (sent ++ sent2, .error e)
      | (sent2, .ok ms) => (sent ++ sent2, .ok (m :: ms))

/-- The persona data `Me` holds: `self.name`, `self.summary`,
`self.linkedin`. -/
structure Persona where
  name : String
  summary : String
  linkedin : String
  deriving DecidableEq, Repr

/-- `Me.system_prompt()`: the exact f-string of the source (12-space
indentation included). -/
def system_prompt (p : Persona) : String :=
  "You are acting as " ++ p.name ++ ".\n" ++
  "            You are answering questions on " ++ p.name ++ "\x27s website, particularly questions\n" ++
  "            related to " ++ p.name ++ "\x27s career, background, skills and experience.\n" ++
  "            Your responsibility is to represent " ++ p.name ++ " for interactions on the\n" ++
  "            website as faithfully as possible.\n" ++
  "            You are given a summary of " ++ p.name ++ "\x27s background and LinkedIn profile\n" ++
  "            which you can use to answer questions.\n" ++
  "            Be professional and engaging, as if talking to a potential client or future\n" ++
  "            employer who came across the website.\n" ++
  "            If you don\x27t know the answer to any question, use your\n" ++
  "            \"record_unknown_question\" tool to record the question that you couldn\x27t\n" ++
  "            answer, even if it\x27s about something trivial or unrelated to career.\n" ++
  "            If the user is engaging in discussion, try to steer them towards getting in\n" ++
  "            touch via email; ask for their email and record it using your\n" ++
  "            \"record_user_details\" tool, but do this only once to avoid annoying the user\n" ++
  "            or spamming me with same email several times, if user insists remind him that\n" ++
  "            you already have their email and you\x27ll contact them.\n" ++
  "\n" ++
  "            ## Summary:\n" ++
  "            " ++ p.summary ++ "\n" ++
  "\n" ++
  "            ## LinkedIn Profile:\n" ++
  "            " ++ p.linkedin ++ "\n" ++
  "\n" ++
  "            With this context, please chat with the user,\n" ++
  "            always staying in character as " ++ p.name ++ ".\n" ++
  "            "

/-- The `while True` loop of `Me.chat`, with explicit fuel: `some text` is a
normal return, `none` means the fuel ran out with the loop still going (the
source has no such bound; the fuel makes non-termination observable). -/
def chatLoop (oracle : Oracle) (env : Env) :
    Nat → List Message → Eff (Option String)
  | 0, _ => ([], .ok none)
  | fuel + 1, messages =>
    let response := oracle messages
    if response.finish_reason == "tool_calls" then
      let m := response.message
      match handle_tool_call env m.tool_calls with
      | (sent, .error e) => (sent, .error e)
      | (sent, .ok results) =>
        match chatLoop oracle env fuel
            (messages ++ Message.assistant m.content m.tool_calls :: results) with
        | (sent2, out) => (sent ++ sent2, out)
    else
      ([], .ok (some response.message.content))

/-- `Me.chat(message, history)`: build `[system] + history + [user]` and run
the loop. -/
def chat (oracle : Oracle) (env : Env) (fuel : Nat) (p : Persona)
    (message : String) (history : List Message) : Eff (Option String) :=
  chatLoop oracle env fuel
    (Message.system (system_prompt p) :: (history ++ [Message.user message]))

/-! ### Concrete fixtures used by witnesses and counterexamples -/

/-- A transport whose calls all complete with HTTP 200. -/
def transOk : Transport := fun _ => some ⟨200⟩

/-- A transport whose calls all raise (connection error). -/
def transFail : Transport := fun _ => none

/-- `json.loads` restricted to the concrete argument strings used below,
agreeing with the real deserializer on each of them. -/
def parseFx : String → Option Args := fun s =>
  if s == "\x7b\x7d" then some []
  else if s == "\x7b\"text\": \"hi\"\x7d" then some [("text", "hi")]
  else if s == "\x7b\"email\": \"a@b.com\"\x7d" then some [("email", "a@b.com")]
  else if s == "\x7b\"question\": \"Why?\"\x7d" then some [("question", "Why?")]
  else none

/-- A concrete environment with a healthy transport. -/
def envOk : Env := ⟨transOk, parseFx, fun _ _ => .ok .null⟩

/-- A concrete environment whose transport raises on every call. -/
def envFail : Env := ⟨transFail, parseFx, fun _ _ => .ok .null⟩

/-- An oracle that requests the given tool invocations on every round. -/
def oracleAlways (tcs : List ToolCall) : Oracle :=
  fun _ => ⟨"tool_calls", ⟨"", tcs⟩⟩

/-- An oracle that stops immediately with the given text. -/
def oracleStop (text : String) : Oracle :=
  fun _ => ⟨"stop", ⟨text, []⟩⟩

/-- An oracle that requests one `record_unknown_question` invocation on the
first round (recognised by the two-message request) and stops with "done"
afterwards. -/
def oracleOnce : Oracle := fun msgs =>
  if msgs.length == 2 then
    ⟨"tool_calls", ⟨"", [⟨"call_7", "record_unknown_question",
      "\x7b\"question\": \"Why?\"\x7d"⟩]⟩⟩
  else ⟨"stop", ⟨"done", []⟩⟩

/-- A transport all of whose calls complete with an HTTP failure status. -/
def trans500 : Transport := fun _ => some ⟨500⟩

/-- The oracle the `C8` witness uses: every round requests one invocation of
a name absent from the globals. -/
def oracleLoopFx : Oracle := oracleAlways [⟨"c1", "record_contact", "\x7b\x7d"⟩]

/-!
### Claim theorems
-/

/-- Claim C4: when the first completion response signals a normal stop
(termination reason is not `tool_calls`), `chat` returns exactly that
response's text content, with zero notifications sent (hence zero tool
handlers run, since both handlers notify). -/
theorem chat_normal_stop (oracle : Oracle) (env : Env) (fuel : Nat)
    (p : Persona) (m : String) (h : List Message)
    (hstop : (oracle (Message.system (system_prompt p) ::
        (h ++ [Message.user m]))).finish_reason ≠ "tool_calls") :
    chat oracle env (fuel + 1) p m h =
      ([], .ok (some (oracle (Message.system (system_prompt p) ::
          (h ++ [Message.user m]))).message.content)) := by
  have hb : ((oracle (Message.system (system_prompt p) ::
      (h ++ [Message.user m]))).finish_reason == "tool_calls") = false :=
    beq_eq_false_iff_ne.mpr hstop
  unfold chat chatLoop
  simp only [hb, Bool.false_eq_true, if_false]

/-- Witness for C4 at a concrete stopping oracle. -/
theorem chat_normal_stop_witness :
    (oracleStop "hi there" (Message.system (system_prompt ⟨"N", "S", "L"⟩) ::
        ([] ++ [Message.user "msg"]))).finish_reason ≠ "tool_calls" ∧
    chat (oracleStop "hi there") envOk 1 ⟨"N", "S", "L"⟩ "msg" [] =
      ([], .ok (some (oracleStop "hi there" (Message.system
          (system_prompt ⟨"N", "S", "L"⟩) ::
          ([] ++ [Message.user "msg"]))).message.content)) :=
  ⟨by decide, chat_normal_stop (oracleStop "hi there") envOk 0
    ⟨"N", "S", "L"⟩ "msg" [] (by decide)⟩

/-- Claim C5: `record_unknown_question` with a question returns
`{"recorded": "ok"}` and hands the transport exactly one notification whose
text contains the literal question (hypothesis: the transport call
completes). -/
theorem record_unknown_question_ok (trans : Transport) (q : String)
    (r : HttpResp) (h : trans ("Recording " ++ q) = some r) :
    record_unknown_question trans q =
      (["Recording " ++ q], .ok (.obj [("recorded", "ok")])) ∧
    ∃ pre post, "Recording " ++ q = pre ++ (q ++ post) := by
  refine ⟨?_, "Recording ", "", by rw [String.append_empty]⟩
  unfold record_unknown_question push post
  rw [h]

/-- Witness for C5 at the spec's example question. -/
theorem record_unknown_question_ok_witness :
    transOk ("Recording " ++ "What is your favorite color?") = some ⟨200⟩ ∧
    (record_unknown_question transOk "What is your favorite color?" =
      (["Recording " ++ "What is your favorite color?"],
       .ok (.obj [("recorded", "ok")])) ∧
     ∃ pre post, "Recording " ++ "What is your favorite color?" =
       pre ++ ("What is your favorite color?" ++ post)) :=
  ⟨rfl, record_unknown_question_ok transOk "What is your favorite color?"
    ⟨200⟩ rfl⟩

/-- Claim C6: dispatching `record_user_details` with only an `email` keyword
argument returns `{"recorded": "ok"}` and the notification text uses the
sentinel defaults `"Name not provided"` and `"not provided"` for the omitted
name and notes (hypothesis: the transport call completes). -/
theorem record_user_details_defaults (env : Env) (email : String)
    (r : HttpResp)
    (h : env.trans ("Recording " ++ "Name not provided" ++ " with email " ++
        email ++ " and notes " ++ "not provided") = some r) :
    callPy env .fnRecordUserDetails [("email", email)] =
      (["Recording " ++ "Name not provided" ++ " with email " ++ email ++
          " and notes " ++ "not provided"],
       .ok (.obj [("recorded", "ok")])) := by
  have hc : callPy env .fnRecordUserDetails [("email", email)] =
      record_user_details env.trans email none none := rfl
  rw [hc]
  simp only [record_user_details, push, post, Option.getD_none, h]

/-- Witness for C6 at the spec's example email. -/
theorem record_user_details_defaults_witness :
    envOk.trans ("Recording " ++ "Name not provided" ++ " with email " ++
      "a@b.com" ++ " and notes " ++ "not provided") = some ⟨200⟩ ∧
    callPy envOk .fnRecordUserDetails [("email", "a@b.com")] =
      (["Recording " ++ "Name not provided" ++ " with email " ++ "a@b.com" ++
          " and notes " ++ "not provided"],
       .ok (.obj [("recorded", "ok")])) :=
  ⟨rfl, record_user_details_defaults envOk "a@b.com" ⟨200⟩ rfl⟩

/-- Claim C3 counterexample: with a transport whose outbound call fails by
raising (connection error — `requests.post` has no exception handling
anywhere in the source), the handlers do not return their success result and
the chat loop aborts with the propagated error instead of continuing to
completion. -/
theorem notifier_failure_cex :
    transFail "Recording Why?" = none ∧
    (record_user_details transFail "a@b.com" none none).2 =
      .error .transportError ∧
    (record_unknown_question transFail "Why?").2 = .error .transportError ∧
    (chatLoop oracleOnce envFail 5 [Message.system "s", Message.user "u"]).2 =
      .error .transportError := by
  refine ⟨rfl, rfl, rfl, rfl⟩

/-- Claim C3 amended: a notifier failure reported in-band (the HTTP response,
whatever its status — e.g. 500) is ignored: the handlers never inspect the
response and return their success result, and nothing reaches the model; but
an exception raised by the transport itself propagates out of the handler
(and hence aborts `chat`), since the source catches nothing. -/
theorem notifier_failure_semantics (status : Nat) (email q : String)
    (trans : Transport) (hc : ∀ t, trans t = some ⟨status⟩) :
    (record_user_details trans email none none).2 =
      .ok (.obj [("recorded", "ok")]) ∧
    (record_unknown_question trans q).2 = .ok (.obj [("recorded", "ok")]) ∧
    (∀ trans2 : Transport, (∀ t, trans2 t = none) →
      (record_unknown_question trans2 q).2 = .error .transportError) := by
  refine ⟨?_, ?_, ?_⟩
  · simp only [record_user_details, push, post, Option.getD_none, hc]
  · simp only [record_unknown_question, push, post, hc]
  · intro trans2 h2
    simp only [record_unknown_question, push, post, h2]

/-- Witness for the amended C3 at an HTTP 500 transport. -/
theorem notifier_failure_semantics_witness :
    (∀ t, trans500 t = some ⟨500⟩) ∧
    ((record_user_details trans500 "a@b.com" none none).2 =
      .ok (.obj [("recorded", "ok")]) ∧
     (record_unknown_question trans500 "Why?").2 =
      .ok (.obj [("recorded", "ok")]) ∧
     (∀ trans2 : Transport, (∀ t, trans2 t = none) →
       (record_unknown_question trans2 "Why?").2 =
         .error .transportError)) :=
  ⟨fun _ => rfl,
   notifier_failure_semantics 500 "a@b.com" "Why?" trans500 (fun _ => rfl)⟩

/-- Claim C1 counterexample: the dispatcher does not consult the registry.
`"push"` and `"json"` are absent from the two-entry registry, yet dispatching
`"push"` calls the global `push` function (one notification goes out and the
serialized result is `"null"`, not the empty object), and dispatching
`"json"` raises `TypeError` (the `json` module is not callable) instead of
producing an empty result. -/
theorem unknown_tool_registry_cex :
    "push" ∉ registryNames ∧
    "json" ∉ registryNames ∧
    handleOne envOk ⟨"call_1", "push", "\x7b\"text\": \"hi\"\x7d"⟩ =
      (["hi"], .ok (.tool "null" "call_1")) ∧
    handleOne envOk ⟨"call_1", "push", "\x7b\"text\": \"hi\"\x7d"⟩ ≠
      ([], .ok (.tool "\x7b\x7d" "call_1")) ∧
    handleOne envOk ⟨"call_2", "json", "\x7b\x7d"⟩ =
      ([], .error .typeError) := by
  refine ⟨by decide, by decide, rfl, ?_, rfl⟩
  intro hx
  exact List.cons_ne_nil "hi" [] (congrArg Prod.fst hx)

/-- Claim C1 amended: for every tool invocation whose name is not bound in
the module's *global symbol table* (a strict superset of the registry) and
whose arguments deserialize, the dispatcher produces the empty result object
`{}`, does not raise, sends nothing, and the loop proceeds to the next
completion request on the extended message sequence. -/
theorem unknown_tool_empty_result (env : Env) (tc : ToolCall) (args : Args)
    (hparse : env.parseJson tc.arguments = some args)
    (habs : module_globals.lookup tc.name = none) :
    handleOne env tc = ([], .ok (.tool "\x7b\x7d" tc.id)) ∧
    ∀ oracle : Oracle, ∀ fuel msgs,
      (oracle msgs).finish_reason = "tool_calls" →
      (oracle msgs).message.tool_calls = [tc] →
      chatLoop oracle env (fuel + 1) msgs =
        chatLoop oracle env fuel
          (msgs ++ [Message.assistant (oracle msgs).message.content [tc],
                    Message.tool "\x7b\x7d" tc.id]) := by
  have h1 : handleOne env tc = ([], .ok (.tool "\x7b\x7d" tc.id)) := by
    unfold handleOne
    rw [hparse, habs]
    rfl
  refine ⟨h1, ?_⟩
  intro oracle fuel msgs hfr htc
  have hb : ((oracle msgs).finish_reason == "tool_calls") = true :=
    beq_iff_eq.mpr hfr
  have h2 : handle_tool_call env [tc] =
      ([], .ok [Message.tool "\x7b\x7d" tc.id]) := by
    unfold handle_tool_call
    rw [h1]
    rfl
  conv_lhs => unfold chatLoop
  rw [if_pos hb]
  simp only [htc, h2]
  rcases hrec : chatLoop oracle env fuel
      (msgs ++ [Message.assistant (oracle msgs).message.content [tc],
                Message.tool "\x7b\x7d" tc.id]) with ⟨s2, out⟩
  simp [hrec]

/-- Witness for the amended C1 at the invocation name `record_contact`,
which is neither a registry name nor a module global. -/
theorem unknown_tool_empty_result_witness :
    envOk.parseJson "\x7b\x7d" = some [] ∧
    module_globals.lookup "record_contact" = none ∧
    (handleOne envOk ⟨"call_3", "record_contact", "\x7b\x7d"⟩ =
      ([], .ok (.tool "\x7b\x7d" "call_3")) ∧
     ∀ oracle : Oracle, ∀ fuel msgs,
      (oracle msgs).finish_reason = "tool_calls" →
      (oracle msgs).message.tool_calls =
        [⟨"call_3", "record_contact", "\x7b\x7d"⟩] →
      chatLoop oracle envOk (fuel + 1) msgs =
        chatLoop oracle envOk fuel
          (msgs ++ [Message.assistant (oracle msgs).message.content
              [⟨"call_3", "record_contact", "\x7b\x7d"⟩],
            Message.tool "\x7b\x7d" "call_3"])) :=
  ⟨rfl, rfl,
   unknown_tool_empty_result envOk ⟨"call_3", "record_contact", "\x7b\x7d"⟩
     [] rfl rfl⟩

/-- Claim C10 (implicit): the dispatcher resolves the requested name against
the module's global symbol table, not the two-entry registry.  Whenever the
name is bound in the globals (`push`, `json` and `os` all are, none of them
registry tools), the bound object is called with the deserialized arguments
— concretely, dispatching `push` with `{"text": "hi"}` sends the
notification "hi" and serializes Python's `None`, and dispatching the `json`
module raises `TypeError`; only a name absent from the globals yields the
empty result object. -/
theorem globals_dispatch (env : Env) (tc : ToolCall) (args : Args)
    (g : PyGlobal)
    (hparse : env.parseJson tc.arguments = some args)
    (hg : module_globals.lookup tc.name = some g) :
    handleOne env tc =
      (match callPy env g args with
       | (sent, .ok result) => (sent, .ok (.tool (dumps result) tc.id))
       | (sent, .error e) => (sent, .error e)) ∧
    (∀ tc2 : ToolCall, ∀ args2 : Args,
      env.parseJson tc2.arguments = some args2 →
      module_globals.lookup tc2.name = none →
      handleOne env tc2 = ([], .ok (.tool "\x7b\x7d" tc2.id))) ∧
    module_globals.lookup "push" = some .fnPush ∧
    "push" ∉ registryNames ∧
    module_globals.lookup "json" = some (.uncallable "json") ∧
    "json" ∉ registryNames ∧
    module_globals.lookup "os" = some (.uncallable "os") ∧
    "os" ∉ registryNames ∧
    callPy envOk .fnPush [("text", "hi")] = (["hi"], .ok .null) ∧
    callPy envOk (.uncallable "json") [] = ([], .error .typeError) := by
  refine ⟨?_, ?_, rfl, by decide, rfl, by decide, rfl, by decide, rfl, rfl⟩
  · unfold handleOne
    rw [hparse, hg]
  · intro tc2 args2 hp2 hn2
    unfold handleOne
    rw [hp2, hn2]
    rfl

/-- Witness for C10 at the invocation of the module-global `push`. -/
theorem globals_dispatch_witness :
    envOk.parseJson "\x7b\"text\": \"hi\"\x7d" = some [("text", "hi")] ∧
    module_globals.lookup "push" = some .fnPush ∧
    handleOne envOk ⟨"call_4", "push", "\x7b\"text\": \"hi\"\x7d"⟩ =
      (match callPy envOk .fnPush [("text", "hi")] with
       | (sent, .ok result) => (sent, .ok (.tool (dumps result) "call_4"))
       | (sent, .error e) => (sent, .error e)) := by
  have h := globals_dispatch envOk ⟨"call_4", "push", "\x7b\"text\": \"hi\"\x7d"⟩
    [("text", "hi")] .fnPush rfl rfl
  exact ⟨rfl, rfl, h.1⟩

/-- If handling one of the invocations in the list raises, the whole
dispatch raises (the loop body has no handler around `json.loads` or the
call). -/
theorem handle_error_of_mem (env : Env) (tc : ToolCall)
    (tcs : List ToolCall) (hmem : tc ∈ tcs) (e : PyErr)
    (h : (handleOne env tc).2 = .error e) :
    ∃ e2, (handle_tool_call env tcs).2 = .error e2 := by
  induction tcs with
  | nil => cases hmem
  | cons hd tl ih =>
    rcases List.mem_cons.mp hmem with heq | hmem2
    · subst heq
      rcases hh : handleOne env tc with ⟨s, r⟩
      rw [hh] at h
      cases r with
      | ok m => cases h
      | error e3 =>
        refine ⟨e3, ?_⟩
        unfold handle_tool_call
        rw [hh]
    · rcases hh : handleOne env hd with ⟨s, r⟩
      cases r with
      | error e3 =>
        refine ⟨e3, ?_⟩
        unfold handle_tool_call
        rw [hh]
      | ok m =>
        rcases ih hmem2 with ⟨e2, h2⟩
        rcases h3 : handle_tool_call env tl with ⟨s2, r2⟩
        rw [h3] at h2
        cases r2 with
        | ok ms => cases h2
        | error e4 =>
          refine ⟨e4, ?_⟩
          unfold handle_tool_call
          rw [hh, h3]

/-- Claim C9: a tool invocation whose `raw_arguments` fail to deserialize is
not handled: `json.loads` raises, the error propagates out of
`handle_tool_call` (no empty argument set is substituted, no tool-result
message is appended) and aborts the `chat` loop. -/
theorem malformed_arguments_propagate (env : Env) (tc : ToolCall)
    (tcs : List ToolCall)
    (hbad : env.parseJson tc.arguments = none) (hmem : tc ∈ tcs) :
    (handleOne env tc).2 = .error .jsonDecodeError ∧
    (∃ e, (handle_tool_call env tcs).2 = .error e) ∧
    (∀ oracle : Oracle, ∀ fuel msgs,
      (oracle msgs).finish_reason = "tool_calls" →
      (oracle msgs).message.tool_calls = tcs →
      ∃ e, (chatLoop oracle env (fuel + 1) msgs).2 = .error e) := by
  have h1 : (handleOne env tc).2 = .error .jsonDecodeError := by
    unfold handleOne
    rw [hbad]
  have h2 := handle_error_of_mem env tc tcs hmem .jsonDecodeError h1
  refine ⟨h1, h2, ?_⟩
  intro oracle fuel msgs hfr htc
  have hb : ((oracle msgs).finish_reason == "tool_calls") = true :=
    beq_iff_eq.mpr hfr
  rcases h2 with ⟨e, he⟩
  refine ⟨e, ?_⟩
  conv_lhs => unfold chatLoop
  rw [if_pos hb]
  simp only [htc]
  rcases hh : handle_tool_call env tcs with ⟨s, r⟩
  rw [hh] at he
  cases r with
  | ok ms => cases he
  | error e3 =>
    cases he
    rfl

/-- Witness for C9: an invocation carrying the non-JSON argument string
"oops" aborts the dispatch and the chat round. -/
theorem malformed_arguments_propagate_witness :
    envOk.parseJson "oops" = none ∧
    (⟨"call_5", "record_unknown_question", "oops"⟩ : ToolCall) ∈
      [(⟨"call_5", "record_unknown_question", "oops"⟩ : ToolCall)] ∧
    ((handleOne envOk ⟨"call_5", "record_unknown_question", "oops"⟩).2 =
      .error .jsonDecodeError ∧
     (∃ e, (handle_tool_call envOk
        [⟨"call_5", "record_unknown_question", "oops"⟩]).2 = .error e) ∧
     (∀ oracle : Oracle, ∀ fuel msgs,
       (oracle msgs).finish_reason = "tool_calls" →
       (oracle msgs).message.tool_calls =
         [⟨"call_5", "record_unknown_question", "oops"⟩] →
       ∃ e, (chatLoop oracle envOk (fuel + 1) msgs).2 = .error e)) :=
  ⟨rfl, List.mem_singleton.mpr rfl,
   malformed_arguments_propagate envOk
     ⟨"call_5", "record_unknown_question", "oops"⟩
     [⟨"call_5", "record_unknown_question", "oops"⟩] rfl
     (List.mem_singleton.mpr rfl)⟩

/-- A successful tool-result message always carries the serialized result
and the id of the invocation it came from. -/
theorem handleOne_ok_shape (env : Env) (tc : ToolCall) (s : List String)
    (msg : Message) (h : handleOne env tc = (s, .ok msg)) :
    ∃ c, msg = .tool c tc.id := by
  unfold handleOne at h
  split at h
  · cases h
  · split at h
    · split at h
      · cases h
        exact ⟨_, rfl⟩
      · cases h
    · cases h
      exact ⟨_, rfl⟩

/-- A successful dispatch returns one result per invocation, in invocation
order: the `i`-th result message is exactly what handling the `i`-th
invocation produced. -/
theorem handle_ok_spec (env : Env) (tcs : List ToolCall) (sent : List String)
    (results : List Message)
    (hh : handle_tool_call env tcs = (sent, .ok results)) :
    results.length = tcs.length ∧
    ∀ i (hi : i < tcs.length) (hj : i < results.length),
      ∃ s, handleOne env (tcs.get ⟨i, hi⟩) = (s, .ok (results.get ⟨i, hj⟩)) := by
  induction tcs generalizing sent results with
  | nil =>
    unfold handle_tool_call at hh
    cases hh
    exact ⟨rfl, fun i hi _ => absurd hi (Nat.not_lt_zero i)⟩
  | cons hd tl ih =>
    unfold handle_tool_call at hh
    rcases h1 : handleOne env hd with ⟨s1, r1⟩
    rw [h1] at hh
    cases r1 with
    | error e => cases hh
    | ok m =>
      rcases h2 : handle_tool_call env tl with ⟨s2, r2⟩
      rw [h2] at hh
      cases r2 with
      | error e => cases hh
      | ok ms =>
        cases hh
        obtain ⟨hlen, hidx⟩ := ih s2 ms h2
        refine ⟨by simp [hlen], ?_⟩
        intro i hi hj
        cases i with
        | zero => exact ⟨s1, h1⟩
        | succ n =>
          exact hidx n (Nat.lt_of_succ_lt_succ hi) (Nat.lt_of_succ_lt_succ hj)

/-- Claim C2: when a response requests N tool invocations and dispatch
succeeds, the engine appends the assistant's tool-call message followed by
exactly N tool-result messages — the `i`-th carrying the serialized result
and the id of the `i`-th invocation, in emission order — and only then
issues the next completion request on the extended sequence. -/
theorem tool_results_order (oracle : Oracle) (env : Env) (fuel : Nat)
    (msgs : List Message) (sent : List String) (results : List Message)
    (hfr : (oracle msgs).finish_reason = "tool_calls")
    (hh : handle_tool_call env (oracle msgs).message.tool_calls =
      (sent, .ok results)) :
    results.length = (oracle msgs).message.tool_calls.length ∧
    (∀ i (hi : i < (oracle msgs).message.tool_calls.length)
       (hj : i < results.length),
      (∃ s, handleOne env ((oracle msgs).message.tool_calls.get ⟨i, hi⟩) =
          (s, .ok (results.get ⟨i, hj⟩))) ∧
      (results.get ⟨i, hj⟩).toolCallId =
        some ((oracle msgs).message.tool_calls.get ⟨i, hi⟩).id) ∧
    chatLoop oracle env (fuel + 1) msgs =
      (sent ++ (chatLoop oracle env fuel
          (msgs ++ Message.assistant (oracle msgs).message.content
            (oracle msgs).message.tool_calls :: results)).1,
       (chatLoop oracle env fuel
          (msgs ++ Message.assistant (oracle msgs).message.content
            (oracle msgs).message.tool_calls :: results)).2) := by
  obtain ⟨hlen, hidx⟩ := handle_ok_spec env _ sent results hh
  refine ⟨hlen, ?_, ?_⟩
  · intro i hi hj
    obtain ⟨s, hs⟩ := hidx i hi hj
    obtain ⟨c, hc⟩ := handleOne_ok_shape env _ s _ hs
    exact ⟨⟨s, hs⟩, by rw [hc]; rfl⟩
  · have hb : ((oracle msgs).finish_reason == "tool_calls") = true :=
      beq_iff_eq.mpr hfr
    conv_lhs => unfold chatLoop
    rw [if_pos hb]
    simp only [hh]

/-- Witness for C2: one `record_unknown_question` invocation is answered by
one correlated tool-result message before the next request. -/
theorem tool_results_order_witness :
    (oracleOnce [Message.system "s", Message.user "u"]).finish_reason =
      "tool_calls" ∧
    handle_tool_call envOk
        (oracleOnce [Message.system "s", Message.user "u"]).message.tool_calls =
      (["Recording Why?"],
       .ok [Message.tool "\x7b\"recorded\": \"ok\"\x7d" "call_7"]) ∧
    chatLoop oracleOnce envOk 2 [Message.system "s", Message.user "u"] =
      (["Recording Why?"] ++ (chatLoop oracleOnce envOk 1
          ([Message.system "s", Message.user "u"] ++
            Message.assistant
              (oracleOnce [Message.system "s", Message.user "u"]).message.content
              (oracleOnce [Message.system "s", Message.user "u"]).message.tool_calls ::
            [Message.tool "\x7b\"recorded\": \"ok\"\x7d" "call_7"])).1,
       (chatLoop oracleOnce envOk 1
          ([Message.system "s", Message.user "u"] ++
            Message.assistant
              (oracleOnce [Message.system "s", Message.user "u"]).message.content
              (oracleOnce [Message.system "s", Message.user "u"]).message.tool_calls ::
            [Message.tool "\x7b\"recorded\": \"ok\"\x7d" "call_7"])).2) := by
  have h := tool_results_order oracleOnce envOk 1
    [Message.system "s", Message.user "u"] ["Recording Why?"]
    [Message.tool "\x7b\"recorded\": \"ok\"\x7d" "call_7"] rfl rfl
  exact ⟨rfl, rfl, h.2.2⟩

/-- Claim C8: the `while True` loop has no iteration cap.  (1) Under an
oracle that requests tool calls on every round, no amount of fuel makes the
loop produce a final answer — `chat` never returns.  (2) A final answer is
produced only if some completion request got a response whose termination
reason differs from `tool_calls`, and the answer is that response's content.
(3) Conversely, a non-`tool_calls` response terminates the loop at once. -/
theorem chat_loop_unbounded (oracle : Oracle) (env : Env) :
    ((∀ msgs, (oracle msgs).finish_reason = "tool_calls") →
      ∀ fuel msgs s, (chatLoop oracle env fuel msgs).2 ≠ .ok (some s)) ∧
    (∀ fuel msgs s, (chatLoop oracle env fuel msgs).2 = .ok (some s) →
      ∃ m, (oracle m).finish_reason ≠ "tool_calls" ∧
        s = (oracle m).message.content) ∧
    (∀ msgs, (oracle msgs).finish_reason ≠ "tool_calls" →
      ∀ fuel, chatLoop oracle env (fuel + 1) msgs =
        ([], .ok (some (oracle msgs).message.content))) := by
  refine ⟨?_, ?_, ?_⟩
  · intro hall fuel
    induction fuel with
    | zero =>
      intro msgs s h
      exact Option.noConfusion (Except.ok.inj h)
    | succ n ih =>
      intro msgs s h
      have hb : ((oracle msgs).finish_reason == "tool_calls") = true :=
        beq_iff_eq.mpr (hall msgs)
      unfold chatLoop at h
      rw [if_pos hb] at h
      simp only [] at h
      split at h
      · exact Except.noConfusion h
      · exact ih _ s h
  · intro fuel
    induction fuel with
    | zero =>
      intro msgs s h
      exact Option.noConfusion (Except.ok.inj h)
    | succ n ih =>
      intro msgs s h
      unfold chatLoop at h
      by_cases hb : ((oracle msgs).finish_reason == "tool_calls") = true
      · rw [if_pos hb] at h
        simp only [] at h
        split at h
        · exact Except.noConfusion h
        · exact ih _ s h
      · rw [if_neg hb] at h
        refine ⟨msgs, ?_, ?_⟩
        · intro hc
          exact hb (beq_iff_eq.mpr hc)
        · exact (Option.some.inj (Except.ok.inj h)).symm
  · intro msgs hne fuel
    have hb : ((oracle msgs).finish_reason == "tool_calls") = false :=
      beq_eq_false_iff_ne.mpr hne
    unfold chatLoop
    simp only [hb, Bool.false_eq_true, if_false]

/-- Witness for C8: the perpetually-tool-calling fixture oracle never yields
an answer, a stopping oracle yields one at once. -/
theorem chat_loop_unbounded_witness :
    (∀ msgs, (oracleLoopFx msgs).finish_reason = "tool_calls") ∧
    (chatLoop oracleLoopFx envOk 3 []).2 ≠ .ok (some "done") ∧
    ((oracleStop "hi") []).finish_reason ≠ "tool_calls" ∧
    chatLoop (oracleStop "hi") envOk 1 [] = ([], .ok (some "hi")) := by
  refine ⟨fun _ => rfl, ?_, by decide, ?_⟩
  · exact (chat_loop_unbounded oracleLoopFx envOk).1 (fun _ => rfl) 3 [] "done"
  · exact (chat_loop_unbounded (oracleStop "hi") envOk).2.2 [] (by decide) 0

/-- Claim C7: `chat` builds the working sequence as exactly one system
message (the persona prompt, a function of the persona's name, summary and
background only) followed by the prior history unchanged followed by one
user message with the user's text, and runs the loop on it — including for
empty history and an empty user message. -/
theorem chat_message_construction (oracle : Oracle) (env : Env) (fuel : Nat)
    (p : Persona) (m : String) (h : List Message) :
    chat oracle env fuel p m h =
      chatLoop oracle env fuel
        (Message.system (system_prompt p) :: (h ++ [Message.user m])) ∧
    (Message.system (system_prompt p) :: (h ++ [Message.user m])).length =
      h.length + 2 ∧
    (Message.system (system_prompt p) :: (h ++ [Message.user m])).head? =
      some (Message.system (system_prompt p)) ∧
    (Message.system (system_prompt p) ::
      (h ++ [Message.user m])).getLast? = some (Message.user m) ∧
    ((Message.system (system_prompt p) ::
      (h ++ [Message.user m])).drop 1).take h.length = h ∧
    (∀ q : Persona, p.name = q.name → p.summary = q.summary →
      p.linkedin = q.linkedin → system_prompt p = system_prompt q) := by
  refine ⟨rfl, by simp, rfl, ?_, ?_, ?_⟩
  · rw [show Message.system (system_prompt p) :: (h ++ [Message.user m]) =
      (Message.system (system_prompt p) :: h) ++ [Message.user m] from rfl]
    exact List.getLast?_concat _
  · simp only [List.drop_succ_cons, List.drop_zero]
    exact List.take_left h [Message.user m]
  · intro q h1 h2 h3
    simp only [system_prompt, h1, h2, h3]

/-- Witness for C7 at the boundary case: empty history and empty user
message still give `[system, user ""]`. -/
theorem chat_message_construction_witness :
    chat (oracleStop "hi") envOk 1 ⟨"N", "S", "L"⟩ "" [] =
      chatLoop (oracleStop "hi") envOk 1
        (Message.system (system_prompt ⟨"N", "S", "L"⟩) ::
          ([] ++ [Message.user ""])) ∧
    (Message.system (system_prompt ⟨"N", "S", "L"⟩) ::
      (([] : List Message) ++ [Message.user ""])).length = 0 + 2 := by
  have h := chat_message_construction (oracleStop "hi") envOk 1
    ⟨"N", "S", "L"⟩ "" []
  exact ⟨h.1, h.2.1⟩

end Carbaz
